import Mathlib

/-!
Verification of the rate-limited quote-fetching subsystem of the
stock-position-tracker repository.

The definitions below are a shallow embedding of the JavaScript class
`FinnhubRateLimiter` (src/services/finnhubRateLimiter.js, embedded in
src/src/components/portfolio/StockAutocompleteInput.vue) and of the
`StockApiService` class (src/services/stockApi.js).  Timestamps
(`Date.now()` values, milliseconds) are modelled as `Int`; fractional
JavaScript arithmetic (the float division in `calculateOptimalDelay`) is
modelled with `ℚ`; the mutation of `this.callHistory` and `this.stats`
is modelled by explicit state passing.
-/

/-- Source constant `this.maxCallsPerMinute = 60` (Finnhub hard limit). -/
def maxCallsPerMinute : Nat := 60

/-- Source constant `this.safetyBuffer = 5`. -/
def safetyBuffer : Nat := 5

/-- Source: `this.effectiveLimit = this.maxCallsPerMinute - this.safetyBuffer`. -/
def effectiveLimit : Nat := maxCallsPerMinute - safetyBuffer

/-- The `this.stats` record of `FinnhubRateLimiter`. -/
structure LimiterStats where
  totalCalls : Nat
  successfulCalls : Nat
  rateLimitHits : Nat
  currentWindowCalls : Nat
deriving DecidableEq

/-- The mutable state of `FinnhubRateLimiter` relevant to the sliding
window: `this.callHistory` (a list of `Date.now()` timestamps, oldest
first, since new entries are pushed at the end) and `this.stats`. -/
structure LimiterState where
  callHistory : List Int
  stats : LimiterStats
deriving DecidableEq

/-- Initial stats set in the constructor. -/
def initialStats : LimiterStats := ⟨0, 0, 0, 0⟩

/-- Limiter state right after the constructor ran. -/
def initialState : LimiterState := ⟨[], initialStats⟩

/-- Source `cleanupOldCalls()`:
`this.callHistory = this.callHistory.filter(timestamp => timestamp > cutoff)`
with `cutoff = Date.now() - 60000`. -/
def cleanupOldCalls (now : Int) (s : LimiterState) : LimiterState :=
  { s with callHistory := s.callHistory.filter (fun timestamp => now - 60000 < timestamp) }

/-- Source `updateCurrentWindowCalls()`: runs `cleanupOldCalls()` and then
sets `this.stats.currentWindowCalls = this.callHistory.length`. -/
def updateCurrentWindowCalls (now : Int) (s : LimiterState) : LimiterState :=
  let s' := cleanupOldCalls now s
  { s' with stats := { s'.stats with currentWindowCalls := s'.callHistory.length } }

/-- Source `canMakeCall()`: runs `updateCurrentWindowCalls()` (mutating the
state) and returns `this.stats.currentWindowCalls < this.effectiveLimit`.
The returned pair is (returned boolean, state after the call). -/
def canMakeCall (now : Int) (s : LimiterState) : Bool × LimiterState :=
  let s' := updateCurrentWindowCalls now s
  (decide (s'.stats.currentWindowCalls < effectiveLimit), s')

/-- Source `recordCall()`: pushes `Date.now()` onto `this.callHistory`,
increments `this.stats.totalCalls` and runs `updateCurrentWindowCalls()`. -/
def recordCall (now : Int) (s : LimiterState) : LimiterState :=
  updateCurrentWindowCalls now
    { s with callHistory := s.callHistory ++ [now],
             stats := { s.stats with totalCalls := s.stats.totalCalls + 1 } }

/-- Source `getTimeUntilWindowReset()`: `0` on an empty history, otherwise
`Math.max(0, oldestCall + 60000 - now)` where `oldestCall = this.callHistory[0]`. -/
def getTimeUntilWindowReset (now : Int) (s : LimiterState) : Int :=
  match s.callHistory with
  | [] => 0
  | oldestCall :: _ => max 0 (oldestCall + 60000 - now)

/-- Number of call-history entries lying within the trailing 60-second
window at time `now` (the strict comparison matches the filter used by
`cleanupOldCalls`). -/
def countWindow (now : Int) (history : List Int) : Nat :=
  (history.filter (fun timestamp => now - 60000 < timestamp)).length

/-- Filtering twice with the same predicate is the same as filtering once. -/
theorem filter_idem {α : Type} (p : α → Bool) (l : List α) :
    (l.filter p).filter p = l.filter p := by
  rw [List.filter_filter]
  exact List.filter_congr (fun a _ => by cases p a <;> simp)

/-- The boolean returned by `canMakeCall` compares the in-window count
against the effective limit. -/
theorem canMakeCall_fst (now : Int) (s : LimiterState) :
    (canMakeCall now s).1 = decide (countWindow now s.callHistory < effectiveLimit) := rfl

/-- The state left behind by `canMakeCall` carries the pruned history. -/
theorem canMakeCall_snd_history (now : Int) (s : LimiterState) :
    (canMakeCall now s).2.callHistory =
      s.callHistory.filter (fun timestamp => now - 60000 < timestamp) := rfl

/-- C2: for every sequence of `recordCall()` invocations (hence for every
limiter state) and every current time, `canMakeCall()` returns `false`
whenever the count of recorded timestamps within the trailing 60 seconds
equals the effective limit (60 − 5 = 55, a process-lifetime constant), and
returns `true` when the in-window count is below 55. -/
theorem canMakeCall_window_spec :
    effectiveLimit = 55 ∧
    effectiveLimit = maxCallsPerMinute - safetyBuffer ∧
    (∀ (now : Int) (s : LimiterState),
      countWindow now s.callHistory = effectiveLimit → (canMakeCall now s).1 = false) ∧
    (∀ (now : Int) (s : LimiterState),
      countWindow now s.callHistory < effectiveLimit → (canMakeCall now s).1 = true) := by
  refine ⟨rfl, rfl, ?_, ?_⟩ <;> intro now s h <;>
    rw [canMakeCall_fst] <;> simp <;> omega

/-- Witness for `canMakeCall_window_spec` at a concrete state. -/
theorem canMakeCall_window_spec_witness :
    countWindow 0 initialState.callHistory < effectiveLimit ∧
      (canMakeCall 0 initialState).1 = true :=
  ⟨by decide, canMakeCall_window_spec.2.2.2 0 initialState (by decide)⟩

/-- C1: window-bound invariant of the drain loop.  For every limiter state
(in particular every reachable one) and any dispatch where the
`canMakeCall` gate was checked at time `t1` and `recordCall` then appended
its timestamp at time `t2 ≥ t1`, the number of call-history entries within
the trailing 60-second window at `t2`, the newly appended entry included,
is at most `effectiveLimit` (55). -/
theorem dispatch_window_bound :
    ∀ (s : LimiterState) (t1 t2 : Int), t1 ≤ t2 →
    (canMakeCall t1 s).1 = true →
    countWindow t2 (recordCall t2 (canMakeCall t1 s).2).callHistory ≤ effectiveLimit := by
  intro s t1 t2 _ht hcan
  rw [canMakeCall_fst, decide_eq_true_eq] at hcan
  have hlen : (s.callHistory.filter (fun timestamp => t1 - 60000 < timestamp)).length
      < effectiveLimit := hcan
  show countWindow t2
      ((((canMakeCall t1 s).2.callHistory ++ [t2]).filter
        (fun timestamp => t2 - 60000 < timestamp))) ≤ effectiveLimit
  rw [canMakeCall_snd_history]
  unfold countWindow
  rw [filter_idem, List.filter_append, List.length_append]
  have h2 : (List.filter (fun timestamp => decide (t2 - 60000 < timestamp)) [t2]).length ≤ 1 := by
    exact List.length_filter_le (fun timestamp => decide (t2 - 60000 < timestamp)) [t2]
  have h1 : (List.filter (fun timestamp => decide (t2 - 60000 < timestamp))
      (s.callHistory.filter (fun timestamp => t1 - 60000 < timestamp))).length
      ≤ (s.callHistory.filter (fun timestamp => t1 - 60000 < timestamp)).length :=
    List.length_filter_le _ _
  omega

/-- Witness for `dispatch_window_bound` at the empty initial state. -/
theorem dispatch_window_bound_witness :
    (0 : Int) ≤ 0 ∧ (canMakeCall 0 initialState).1 = true ∧
      countWindow 0 (recordCall 0 (canMakeCall 0 initialState).2).callHistory ≤ effectiveLimit :=
  ⟨le_refl 0, by decide, dispatch_window_bound initialState 0 0 (le_refl 0) (by decide)⟩

/-- A limiter state holding 55 recorded calls, all time-stamped 10 seconds
before the probe time 1000000 used in the end-to-end scenario of C8. -/
def scenario55 : LimiterState := ⟨List.replicate 55 990000, initialStats⟩

/-- C8: `getTimeUntilWindowReset()` returns 0 on an empty call history and
otherwise `max 0 (oldest + 60000 − now)`; the result is never negative and
the function is total (never throws).  End-to-end scenario: with effective
limit 55 and 55 calls all recorded 10 seconds ago, `canMakeCall()` is
`false` and `getTimeUntilWindowReset()` is exactly 50 seconds. -/
theorem timeUntilWindowReset_spec :
    (∀ (now : Int) (s : LimiterState), s.callHistory = [] →
      getTimeUntilWindowReset now s = 0) ∧
    (∀ (now oldestCall : Int) (rest : List Int) (s : LimiterState),
      s.callHistory = oldestCall :: rest →
      getTimeUntilWindowReset now s = max 0 (oldestCall + 60000 - now)) ∧
    (∀ (now : Int) (s : LimiterState), 0 ≤ getTimeUntilWindowReset now s) ∧
    ((canMakeCall 1000000 scenario55).1 = false ∧
      getTimeUntilWindowReset 1000000 (canMakeCall 1000000 scenario55).2 = 50000) := by
  refine ⟨?_, ?_, ?_, by decide, by decide⟩
  · intro now s h
    unfold getTimeUntilWindowReset
    rw [h]
  · intro now oldestCall rest s h
    unfold getTimeUntilWindowReset
    rw [h]
  · intro now s
    unfold getTimeUntilWindowReset
    cases s.callHistory with
    | nil => exact le_refl 0
    | cons a l => exact le_max_left 0 _

/-- Witness for `timeUntilWindowReset_spec` at concrete states. -/
theorem timeUntilWindowReset_spec_witness :
    initialState.callHistory = [] ∧ getTimeUntilWindowReset 12345 initialState = 0 :=
  ⟨rfl, timeUntilWindowReset_spec.1 12345 initialState rfl⟩

/-- JavaScript `Math.max` on two (non-NaN) numbers, over `ℚ`. -/
def jsMax (a b : ℚ) : ℚ := if a ≤ b then b else a

/-- The second argument of `jsMax` is below the result. -/
theorem le_jsMax_right (a b : ℚ) : b ≤ jsMax a b := by
  unfold jsMax
  split
  · exact le_refl b
  · linarith [lt_of_not_le (by assumption : ¬ a ≤ b)]

/-- `jsMax` is monotone in its second argument. -/
theorem jsMax_mono_right (a b c : ℚ) (h : b ≤ c) : jsMax a b ≤ jsMax a c := by
  unfold jsMax
  split <;> split
  · exact h
  · linarith [lt_of_not_le (by assumption : ¬ a ≤ c)]
  · assumption
  · exact le_refl a

/-- Body of `calculateOptimalDelay()` after the state update: source
`if (remainingCalls <= 0) return timeUntilReset;
const optimalDelay = Math.max(0, timeUntilReset / remainingCalls);
return Math.max(1000, optimalDelay)`.  The JavaScript float division is
modelled exactly over `ℚ`. -/
def delayFor (timeUntilReset remainingCalls : Int) : ℚ :=
  if remainingCalls ≤ 0 then (timeUntilReset : ℚ)
  else jsMax 1000 (jsMax 0 ((timeUntilReset : ℚ) / (remainingCalls : ℚ)))

/-- Source `calculateOptimalDelay()`: runs `updateCurrentWindowCalls()`,
reads `remainingCalls = this.effectiveLimit - this.stats.currentWindowCalls`
and `timeUntilReset = this.getTimeUntilWindowReset()`, then returns
`delayFor` of those.  The pair is (returned delay, state after the call). -/
def calculateOptimalDelay (now : Int) (s : LimiterState) : ℚ × LimiterState :=
  let s' := updateCurrentWindowCalls now s
  let remainingCalls : Int := (effectiveLimit : Int) - (s'.stats.currentWindowCalls : Int)
  let timeUntilReset := getTimeUntilWindowReset now s'
  (delayFor timeUntilReset remainingCalls, s')

/-- State with 54 in-window calls, oldest giving a 500 ms reset time at
probe time 1000000. -/
def stateC7a : LimiterState := ⟨List.replicate 54 940500, initialStats⟩

/-- State with 55 in-window calls, oldest giving a 500 ms reset time at
probe time 1000000. -/
def stateC7b : LimiterState := ⟨List.replicate 55 940500, initialStats⟩

/-- C7 counterexample: with `timeUntilWindowReset` fixed at 500 ms, when the
remaining allowed calls decrease from 1 to 0 the delay returned by
`calculateOptimalDelay()` drops from 1000 ms (the minimum inter-call delay)
to 500 ms, so it is not monotonically non-decreasing. -/
theorem optimalDelay_monotonicity_cex :
    getTimeUntilWindowReset 1000000 (updateCurrentWindowCalls 1000000 stateC7a) = 500 ∧
    getTimeUntilWindowReset 1000000 (updateCurrentWindowCalls 1000000 stateC7b) = 500 ∧
    (effectiveLimit : Int) -
      ((updateCurrentWindowCalls 1000000 stateC7a).stats.currentWindowCalls : Int) = 1 ∧
    (effectiveLimit : Int) -
      ((updateCurrentWindowCalls 1000000 stateC7b).stats.currentWindowCalls : Int) = 0 ∧
    (calculateOptimalDelay 1000000 stateC7a).1 = 1000 ∧
    (calculateOptimalDelay 1000000 stateC7b).1 = 500 ∧
    (calculateOptimalDelay 1000000 stateC7b).1 < (calculateOptimalDelay 1000000 stateC7a).1 := by
  have ha : (calculateOptimalDelay 1000000 stateC7a).1 = delayFor 500 1 := by
    show delayFor (getTimeUntilWindowReset 1000000 (updateCurrentWindowCalls 1000000 stateC7a))
        ((effectiveLimit : Int) -
          ((updateCurrentWindowCalls 1000000 stateC7a).stats.currentWindowCalls : Int)) =
      delayFor 500 1
    rw [show getTimeUntilWindowReset 1000000 (updateCurrentWindowCalls 1000000 stateC7a) = 500
        by decide,
      show (effectiveLimit : Int) -
          ((updateCurrentWindowCalls 1000000 stateC7a).stats.currentWindowCalls : Int) = 1
        by decide]
  have hb : (calculateOptimalDelay 1000000 stateC7b).1 = delayFor 500 0 := by
    show delayFor (getTimeUntilWindowReset 1000000 (updateCurrentWindowCalls 1000000 stateC7b))
        ((effectiveLimit : Int) -
          ((updateCurrentWindowCalls 1000000 stateC7b).stats.currentWindowCalls : Int)) =
      delayFor 500 0
    rw [show getTimeUntilWindowReset 1000000 (updateCurrentWindowCalls 1000000 stateC7b) = 500
        by decide,
      show (effectiveLimit : Int) -
          ((updateCurrentWindowCalls 1000000 stateC7b).stats.currentWindowCalls : Int) = 0
        by decide]
  have hva : delayFor 500 1 = 1000 := by
    unfold delayFor jsMax
    norm_num
  have hvb : delayFor 500 0 = 500 := by
    unfold delayFor
    norm_num
  refine ⟨by decide, by decide, by decide, by decide, ?_, ?_, ?_⟩
  · rw [ha, hva]
  · rw [hb, hvb]
  · rw [ha, hb, hva, hvb]
    norm_num

/-- C7 amended: for a fixed `timeUntilWindowReset` value, the delay returned
by `calculateOptimalDelay()` is monotonically non-decreasing as the number
of remaining allowed calls decreases, as long as at least one call remains
(remaining ≥ 1); when the remaining count reaches 0 the delay becomes the
bare reset wait, which may undercut the 1000 ms minimum. -/
theorem optimalDelay_monotone :
    (∀ (now : Int) (s : LimiterState),
      (calculateOptimalDelay now s).1 =
        delayFor (getTimeUntilWindowReset now (updateCurrentWindowCalls now s))
          ((effectiveLimit : Int) - (countWindow now s.callHistory : Int))) ∧
    (∀ t r1 r2 : Int, 0 ≤ t → 1 ≤ r2 → r2 ≤ r1 → delayFor t r1 ≤ delayFor t r2) := by
  constructor
  · intro now s; rfl
  · intro t r1 r2 ht h2 h21
    unfold delayFor
    rw [if_neg (by omega), if_neg (by omega)]
    have ht' : (0 : ℚ) ≤ (t : ℚ) := by exact_mod_cast ht
    have h2' : (0 : ℚ) < (r2 : ℚ) := by exact_mod_cast (show (0 : Int) < r2 by omega)
    have h21' : (r2 : ℚ) ≤ (r1 : ℚ) := by exact_mod_cast h21
    exact jsMax_mono_right _ _ _
      (jsMax_mono_right _ _ _ (div_le_div_of_nonneg_left ht' h2' h21'))

/-- Witness for `optimalDelay_monotone` at concrete arguments. -/
theorem optimalDelay_monotone_witness :
    (0 : Int) ≤ 500 ∧ (1 : Int) ≤ 1 ∧ (1 : Int) ≤ 2 ∧ delayFor 500 2 ≤ delayFor 500 1 :=
  ⟨by decide, by decide, by decide,
    optimalDelay_monotone.2 500 2 1 (by decide) (by decide) (by decide)⟩

/-- Value of `Math.floor(a / b)` over nonnegative JavaScript numbers,
keeping the `b = 0` case explicit: in JavaScript `a / 0` is `Infinity`
(for `a > 0`) and `Math.floor(Infinity) = Infinity`.  For `b ≥ 1` the
double-precision quotient of these small integers floors to the exact
integer quotient. -/
inductive JsFloorVal where
  | fin (k : Nat)
  | inf
deriving DecidableEq

/-- JavaScript `Math.floor(a / b)` (used with `a > 0`). -/
def jsFloorDiv (a b : Nat) : JsFloorVal :=
  if b = 0 then JsFloorVal.inf else JsFloorVal.fin (a / b)

/-- JavaScript comparison `x >= 1` where `x` may be `Infinity`. -/
def jsGeOne : JsFloorVal → Bool
  | JsFloorVal.inf => true
  | JsFloorVal.fin k => decide (1 ≤ k)

/-- JavaScript `Math.floor(a / x)` where `x` may be `Infinity`
(a finite number divided by `Infinity` is `0`). -/
def jsFloorDivBy (a : Nat) : JsFloorVal → Nat
  | JsFloorVal.inf => 0
  | JsFloorVal.fin k => a / k

/-- JavaScript `Math.ceil(a / b)` for `b > 0`. -/
def jsCeilDiv (a b : Nat) : Nat := (a + b - 1) / b

/-- Source `getOptimalUpdateFrequency(portfolioSize)`:
`callsPerUpdate = portfolioSize`;
`updatesPerWindow = Math.floor(this.effectiveLimit / callsPerUpdate)`;
if `updatesPerWindow >= 1` return
`Math.max(Math.floor(60000 / updatesPerWindow), 30000)`, otherwise return
`Math.ceil(callsPerUpdate / this.effectiveLimit) * 60000`. -/
def getOptimalUpdateFrequency (portfolioSize : Nat) : Nat :=
  let callsPerUpdate := portfolioSize
  let updatesPerWindow := jsFloorDiv effectiveLimit callsPerUpdate
  if jsGeOne updatesPerWindow then
    max (jsFloorDivBy 60000 updatesPerWindow) 30000
  else
    jsCeilDiv callsPerUpdate effectiveLimit * 60000

/-- Formula stated by claim C6, written from the claim's words: if
`floor(55/n) ≥ 1` the result is 60000 divided by `floor(55/n)`, floored at
the 30000 ms minimum; otherwise `ceil(n/55) * 60000`. -/
def claimedOptimalFrequency (n : Nat) : Nat :=
  if 1 ≤ effectiveLimit / n then max (60000 / (effectiveLimit / n)) 30000
  else jsCeilDiv n effectiveLimit * 60000

/-- C6: for every portfolio size ≥ 1, `getOptimalUpdateFrequency` computes
exactly the claimed formula; for size 10 the 30 s minimum floor applies
(the raw per-cycle value would be 12 s), and for size 200 the result is
`ceil(200/55)` minutes, i.e. 240 s. -/
theorem optimalUpdateFrequency_spec :
    (∀ n : Nat, 1 ≤ n → getOptimalUpdateFrequency n = claimedOptimalFrequency n) ∧
    getOptimalUpdateFrequency 10 = 30000 ∧
    jsFloorDivBy 60000 (jsFloorDiv effectiveLimit 10) = 12000 ∧
    getOptimalUpdateFrequency 200 = jsCeilDiv 200 effectiveLimit * 60000 ∧
    jsCeilDiv 200 effectiveLimit * 60000 = 240000 := by
  refine ⟨?_, by decide, by decide, by decide, by decide⟩
  intro n hn
  have hn0 : ¬ n = 0 := by omega
  simp only [getOptimalUpdateFrequency, claimedOptimalFrequency, jsFloorDiv, if_neg hn0]
  by_cases h : 1 ≤ effectiveLimit / n
  · rw [if_pos (by simp [jsGeOne, h]), if_pos h]
    rfl
  · rw [if_neg (by simp [jsGeOne, h]), if_neg h]

/-- Witness for `optimalUpdateFrequency_spec` at a concrete size. -/
theorem optimalUpdateFrequency_spec_witness :
    1 ≤ 7 ∧ getOptimalUpdateFrequency 7 = claimedOptimalFrequency 7 :=
  ⟨by decide, optimalUpdateFrequency_spec.1 7 (by decide)⟩

/-- C10: on an empty portfolio, `getOptimalUpdateFrequency(0)` does not
throw (the embedding is a total function) and returns the 30000 ms
minimum: `55 / 0` is `Infinity` under JavaScript semantics, the
updates-per-window branch is taken, `Math.floor(60000 / Infinity)` is 0,
and the 30000 ms floor is applied. -/
theorem optimalUpdateFrequency_zero :
    jsFloorDiv effectiveLimit 0 = JsFloorVal.inf ∧
    jsGeOne JsFloorVal.inf = true ∧
    jsFloorDivBy 60000 JsFloorVal.inf = 0 ∧
    getOptimalUpdateFrequency 0 = 30000 := by
  decide

/-- A queued request (`callItem` in `queueCall`): the fields relevant to
scheduling.  `retries` starts at 0 and `maxRetries` is fixed at 3. -/
structure CallItem where
  id : Nat
  symbol : String
  retries : Nat
  maxRetries : Nat
deriving DecidableEq

/-- The `callItem` object built by `queueCall`: `retries: 0, maxRetries: 3`. -/
def mkCallItem (id : Nat) (symbol : String) : CallItem :=
  { id := id, symbol := symbol, retries := 0, maxRetries := 3 }

/-- Source `queueCall(callFunction, priority, symbol)`: pushes the item on
`this.priorityQueue` when `priority === 'high'`, else on `this.regularQueue`
(both pushes append at the tail).  The state is (priorityQueue, regularQueue). -/
def queueCall (pq rq : List CallItem) (item : CallItem) (priority : String) :
    List CallItem × List CallItem :=
  if priority = "high" then (pq ++ [item], rq) else (pq, rq ++ [item])

/-- One pop of the drain loop in `processQueue()`:
`this.priorityQueue.length > 0 ? this.priorityQueue.shift() : this.regularQueue.shift()`. -/
def nextCallPick (pq rq : List CallItem) : Option CallItem × List CallItem × List CallItem :=
  match pq with
  | p :: ps => (some p, ps, rq)
  | [] =>
    match rq with
    | r :: rs => (some r, [], rs)
    | [] => (none, [], [])

/-- Order in which the drain loop of `processQueue()` services the queued
items when no new items arrive and no call fails: repeatedly shift the head
of the priority queue while it is non-empty, else the head of the regular
queue. -/
def drainOrder : List CallItem → List CallItem → List CallItem
  | p :: ps, rq => p :: drainOrder ps rq
  | [], r :: rs => r :: drainOrder [] rs
  | [], [] => []

/-- Draining an empty priority queue yields the regular queue in order. -/
theorem drainOrder_nil (rq : List CallItem) : drainOrder [] rq = rq := by
  induction rq with
  | nil => simp [drainOrder]
  | cons r rs ih => rw [drainOrder, ih]

/-- Draining services the priority queue first, FIFO, then the regular
queue, FIFO. -/
theorem drainOrder_append (pq rq : List CallItem) : drainOrder pq rq = pq ++ rq := by
  induction pq with
  | nil => simp [drainOrder_nil]
  | cons p ps ih => rw [drainOrder, ih, List.cons_append]

/-- C3: the drain loop services the whole priority queue in FIFO order
before any regular-queue item, so service order is `pq ++ rq`; in
particular, enqueuing A (normal), B (high), C (high) in that order makes
the dispatcher execute B, then C, then A. -/
theorem drainOrder_spec :
    (∀ pq rq : List CallItem, drainOrder pq rq = pq ++ rq) ∧
    (let a := mkCallItem 1 "A"
     let b := mkCallItem 2 "B"
     let c := mkCallItem 3 "C"
     let st1 := queueCall [] [] a "normal"
     let st2 := queueCall st1.1 st1.2 b "high"
     let st3 := queueCall st2.1 st2.2 c "high"
     st3.1 = [b, c] ∧ st3.2 = [a] ∧ drainOrder st3.1 st3.2 = [b, c, a]) := by
  refine ⟨drainOrder_append, rfl, rfl, ?_⟩
  rw [drainOrder_append]
  rfl

/-- A JavaScript `Error` as inspected by the classifier: its `message`
string and its (possibly absent) numeric `status` property. -/
structure JsError where
  message : String
  status : Option Int
deriving DecidableEq

/-- Whether the character list `s` starts with the character list `sub`. -/
def startsWithL : List Char → List Char → Bool
  | _, [] => true
  | [], _ :: _ => false
  | c :: cs, d :: ds => c = d && startsWithL cs ds

/-- Whether the character list `sub` occurs contiguously inside `s`. -/
def containsL : List Char → List Char → Bool
  | [], sub => startsWithL [] sub
  | c :: cs, sub => startsWithL (c :: cs) sub || containsL cs sub

/-- JavaScript `s.includes(sub)`. -/
def jsIncludes (s sub : String) : Bool := containsL s.data sub.data

/-- ASCII lowering of one character, as `toLowerCase` acts on the ASCII
error messages involved here. -/
def jsLowerChar (c : Char) : Char :=
  if 'A' ≤ c ∧ c ≤ 'Z' then Char.ofNat (c.toNat + 32) else c

/-- JavaScript `s.toLowerCase()` on ASCII strings. -/
def jsToLower (s : String) : String := ⟨s.data.map jsLowerChar⟩

/-- JavaScript `error.status >= k`: false when `status` is `undefined`
(an undefined comparison is false), else the numeric comparison. -/
def statusAtLeast (e : JsError) (k : Int) : Bool :=
  match e.status with
  | some s => decide (k ≤ s)
  | none => false

/-- Source `isRateLimitError(error)`:
`const message = error.message.toLowerCase(); return
message.includes('rate limit') || message.includes('too many requests')
|| error.status === 429`. -/
def isRateLimitError (e : JsError) : Bool :=
  let message := jsToLower e.message
  jsIncludes message "rate limit" ||
    jsIncludes message "too many requests" ||
    e.status == some 429

/-- Source `shouldRetry(error)`: rate-limit errors, messages containing
`'timeout'` or `'network'` (on the raw, non-lowercased message), and
statuses `>= 500` are retriable; everything else is not. -/
def shouldRetry (e : JsError) : Bool :=
  isRateLimitError e ||
    jsIncludes e.message "timeout" ||
    jsIncludes e.message "network" ||
    statusAtLeast e 500

/-- Final value of `nextCall.retries` when a call whose every execution
fails with error `e` leaves the retry loop of `processQueue()`: starting
from `retries`, the loop keeps re-queuing while
`retries < maxRetries && shouldRetry(error)`, incrementing `retries` each
time, and rejects the caller's promise once the test fails. -/
def finalRetries (e : JsError) (maxRetries retries : Nat) : Nat :=
  if h : retries < maxRetries ∧ shouldRetry e = true then
    finalRetries e maxRetries (retries + 1)
  else retries
termination_by maxRetries - retries
decreasing_by omega

/-- A persistently failing retriable request climbs to `maxRetries`. -/
theorem finalRetries_of_retriable (e : JsError) (h : shouldRetry e = true) :
    ∀ (k maxRetries retries : Nat), maxRetries - retries = k → retries ≤ maxRetries →
      finalRetries e maxRetries retries = maxRetries := by
  intro k
  induction k with
  | zero =>
    intro maxRetries retries hk hle
    unfold finalRetries
    rw [dif_neg (by omega)]
    omega
  | succ k ih =>
    intro maxRetries retries hk hle
    unfold finalRetries
    rw [dif_pos ⟨by omega, h⟩]
    exact ih maxRetries (retries + 1) (by omega) (by omega)

/-- A non-retriable failure leaves the retry counter untouched. -/
theorem finalRetries_of_terminal (e : JsError) (h : shouldRetry e = false)
    (maxRetries retries : Nat) : finalRetries e maxRetries retries = retries := by
  unfold finalRetries
  rw [dif_neg (by simp [h])]

/-- C4: the error classifier marks rate-limit errors (message containing
'rate limit' or 'too many requests' after lowercasing, or status 429),
timeout errors, network errors, and statuses ≥ 500 as retriable, and every
other error as terminal; a request that always fails with a terminal error
is rejected after 0 retries, while one that always fails with a retriable
error is retried `maxRetries = 3` times total and then rejected with the
final error.  The source's invalid-data error is terminal. -/
theorem errorClassifier_spec :
    (∀ e : JsError, jsIncludes (jsToLower e.message) "rate limit" = true → shouldRetry e = true) ∧
    (∀ e : JsError, jsIncludes (jsToLower e.message) "too many requests" = true →
      shouldRetry e = true) ∧
    (∀ e : JsError, e.status = some 429 → shouldRetry e = true) ∧
    (∀ e : JsError, jsIncludes e.message "timeout" = true → shouldRetry e = true) ∧
    (∀ e : JsError, jsIncludes e.message "network" = true → shouldRetry e = true) ∧
    (∀ (e : JsError) (s : Int), e.status = some s → 500 ≤ s → shouldRetry e = true) ∧
    (∀ e : JsError, isRateLimitError e = false → jsIncludes e.message "timeout" = false →
      jsIncludes e.message "network" = false → statusAtLeast e 500 = false →
      shouldRetry e = false) ∧
    (∀ e : JsError, shouldRetry e = false → finalRetries e 3 0 = 0) ∧
    (∀ e : JsError, shouldRetry e = true → finalRetries e 3 0 = 3) ∧
    shouldRetry { message := "Invalid Finnhub response - no price data", status := none } = false := by
  refine ⟨?_, ?_, ?_, ?_, ?_, ?_, ?_, ?_, ?_, by decide⟩
  · intro e h
    simp [shouldRetry, isRateLimitError, h]
  · intro e h
    simp [shouldRetry, isRateLimitError, h]
  · intro e h
    simp [shouldRetry, isRateLimitError, h]
  · intro e h
    simp [shouldRetry, h]
  · intro e h
    simp [shouldRetry, h]
  · intro e s hs h
    simp [shouldRetry, statusAtLeast, hs, h]
  · intro e h1 h2 h3 h4
    simp [shouldRetry, h1, h2, h3, h4]
  · intro e h
    exact finalRetries_of_terminal e h 3 0
  · intro e h
    exact finalRetries_of_retriable e h 3 3 0 rfl (by omega)

/-- Witness for `errorClassifier_spec` at concrete errors. -/
theorem errorClassifier_spec_witness :
    jsIncludes (jsToLower "Rate limit exceeded") "rate limit" = true ∧
      shouldRetry { message := "Rate limit exceeded", status := none } = true ∧
      finalRetries { message := "Rate limit exceeded", status := none } 3 0 = 3 ∧
      shouldRetry { message := "Invalid symbol", status := none } = false ∧
      finalRetries { message := "Invalid symbol", status := none } 3 0 = 0 := by
  refine ⟨by decide, ?_, ?_, by decide, ?_⟩
  · exact errorClassifier_spec.1 { message := "Rate limit exceeded", status := none } (by decide)
  · exact errorClassifier_spec.2.2.2.2.2.2.2.2.1
      { message := "Rate limit exceeded", status := none }
      (errorClassifier_spec.1 { message := "Rate limit exceeded", status := none } (by decide))
  · exact errorClassifier_spec.2.2.2.2.2.2.2.1
      { message := "Invalid symbol", status := none } (by decide)

/-- Failure handling of one dispatched item in `processQueue()`:
`if (nextCall.retries < nextCall.maxRetries && this.shouldRetry(error))`
then `nextCall.retries++` and the item is re-queued —
`this.priorityQueue.unshift(nextCall)` when `nextCall.retries <= 1`, else
`this.regularQueue.push(nextCall)` — otherwise `nextCall.reject(error)`.
The boolean in the result records whether the caller's promise was settled
(rejected); on a re-queue it stays pending. -/
def handleFailure (item : CallItem) (e : JsError) (pq rq : List CallItem) :
    List CallItem × List CallItem × Bool :=
  if item.retries < item.maxRetries ∧ shouldRetry e = true then
    let retried := { item with retries := item.retries + 1 }
    if retried.retries ≤ 1 then (retried :: pq, rq, false)
    else (pq, rq ++ [retried], false)
  else (pq, rq, true)

/-- C5: a retriable failure with the attempt counter below `maxAttempts`
increments the counter and re-queues the request — the first retry at the
head of the priority queue, every later retry at the tail of the regular
queue — leaving the caller's promise pending; in every other failure case
the request is rejected (settled) and the queues are untouched.  Newly
queued items carry `maxRetries = 3`. -/
theorem retryRequeue_spec :
    (∀ (item : CallItem) (e : JsError) (pq rq : List CallItem),
      shouldRetry e = true → item.retries < item.maxRetries →
      (item.retries = 0 →
        handleFailure item e pq rq = ({ item with retries := 1 } :: pq, rq, false)) ∧
      (1 ≤ item.retries →
        handleFailure item e pq rq = (pq, rq ++ [{ item with retries := item.retries + 1 }], false))) ∧
    (∀ (item : CallItem) (e : JsError) (pq rq : List CallItem),
      shouldRetry e = false ∨ ¬ item.retries < item.maxRetries →
      handleFailure item e pq rq = (pq, rq, true)) ∧
    (∀ (id : Nat) (symbol : String),
      (mkCallItem id symbol).retries = 0 ∧ (mkCallItem id symbol).maxRetries = 3) := by
  refine ⟨?_, ?_, fun id symbol => ⟨rfl, rfl⟩⟩
  · intro item e pq rq hre hlt
    constructor
    · intro h0
      unfold handleFailure
      rw [if_pos ⟨hlt, hre⟩, if_pos (by simp [h0]), h0]
    · intro h1
      unfold handleFailure
      rw [if_pos ⟨hlt, hre⟩, if_neg (by simp; omega)]
  · intro item e pq rq h
    unfold handleFailure
    rw [if_neg (by rcases h with h | h <;> simp [h])]

/-- Witness for `retryRequeue_spec` at a concrete item and error. -/
theorem retryRequeue_spec_witness :
    shouldRetry { message := "network error", status := none } = true ∧
      (mkCallItem 1 "AAPL").retries < (mkCallItem 1 "AAPL").maxRetries ∧
      (mkCallItem 1 "AAPL").retries = 0 ∧
      handleFailure (mkCallItem 1 "AAPL") { message := "network error", status := none } [] [] =
        ({ mkCallItem 1 "AAPL" with retries := 1 } :: [], [], false) :=
  ⟨by decide, by decide, rfl,
    ((retryRequeue_spec.1 (mkCallItem 1 "AAPL") { message := "network error", status := none }
      [] [] (by decide) (by decide)).1 rfl)⟩

/-- ASCII raising of one character, as `toUpperCase` acts on the ASCII
ticker symbols involved here. -/
def jsUpperChar (c : Char) : Char :=
  if 'a' ≤ c ∧ c ≤ 'z' then Char.ofNat (c.toNat - 32) else c

/-- JavaScript `s.toUpperCase()` on ASCII strings. -/
def jsToUpper (s : String) : String := ⟨s.data.map jsUpperChar⟩

/-- A quote object as produced by the provider calls of `StockApiService`
(numeric fields over `ℚ`; the fields not inspected by any claim are
omitted).  The `stale` flag is absent (`false`) on fresh quotes and set by
the catch-path spread `{ ...staleCache.data, stale: true }`. -/
structure Quote where
  symbol : String
  price : ℚ
  change : ℚ
  changePercent : ℚ
  source : String
  stale : Bool := false
deriving DecidableEq

/-- An entry of `this.cache`: `{ data, timestamp }`. -/
structure CacheEntry where
  data : Quote
  timestamp : Int
deriving DecidableEq

/-- Source constant `this.cacheTimeout = 30000`. -/
def cacheTimeout : Int := 30000

/-- Source `getCachedPrice(symbol)`: looks up `symbol.toUpperCase()` and
returns the data only while `Date.now() - cached.timestamp < this.cacheTimeout`. -/
def getCachedPrice (cache : List (String × CacheEntry)) (symbol : String) (now : Int) :
    Option Quote :=
  match cache.lookup (jsToUpper symbol) with
  | some cached => if now - cached.timestamp < cacheTimeout then some cached.data else none
  | none => none

/-- Source `setCachedPrice(symbol, data)`: `this.cache.set(symbol.toUpperCase(),
{ data, timestamp: Date.now() })`, modelled as overwrite-and-prepend. -/
def setCachedPrice (cache : List (String × CacheEntry)) (symbol : String) (data : Quote)
    (now : Int) : List (String × CacheEntry) :=
  (jsToUpper symbol, { data := data, timestamp := now }) ::
    cache.filter (fun p => p.1 != jsToUpper symbol)

/-- The `mockPrices` table of `getMockPrice` (base price, volatility),
with the `{ base: 100, volatility: 5 }` default. -/
def mockBase (symbolU : String) : ℚ × ℚ :=
  if symbolU = "AAPL" then (150, 5)
  else if symbolU = "GOOGL" then (2500, 50)
  else if symbolU = "MSFT" then (300, 10)
  else if symbolU = "TSLA" then (800, 40)
  else if symbolU = "AMZN" then (3000, 60)
  else if symbolU = "NVDA" then (400, 20)
  else if symbolU = "META" then (200, 15)
  else if symbolU = "NFLX" then (350, 25)
  else (100, 5)

/-- Source `getMockPrice(symbol)` with the `Math.random()` draw passed in
explicitly as `rand` (the two-decimal display rounding of the float
formatting is not modelled). -/
def getMockPrice (symbol : String) (rand : ℚ) : Quote :=
  let mock := mockBase (jsToUpper symbol)
  let randomChange := (rand - 1/2) * mock.2
  let price := mock.1 + randomChange
  { symbol := jsToUpper symbol, price := price, change := randomChange,
    changePercent := randomChange / mock.1 * 100, source := "Mock Data", stale := false }

/-- Source `getCurrentPrice(symbol)` of `StockApiService`, with the whole
provider interaction (Finnhub through the limiter, including the
dispatcher's retries, and the fallback sources) abstracted into
`fetched : Option Quote` — `some` when any source eventually produced a
price, `none` when every attempt failed or returned no data.  The body
follows the source: fresh-cache hit first; on a successful fetch the
result is cached and returned; on total failure the catch block reads the
cache entry ignoring its TTL and, when one exists, returns it with
`stale: true`, else falls back to `getMockPrice`. -/
def getCurrentPrice (cache : List (String × CacheEntry)) (symbol : String) (now : Int)
    (fetched : Option Quote) (rand : ℚ) : Quote × List (String × CacheEntry) :=
  match getCachedPrice cache symbol now with
  | some cached => (cached, cache)
  | none =>
    match fetched with
    | some price => (price, setCachedPrice cache symbol price now)
    | none =>
      match cache.lookup (jsToUpper symbol) with
      | some staleCache => ({ staleCache.data with stale := true }, cache)
      | none => (getMockPrice symbol rand, cache)

/-- C9: if `getCurrentPrice(symbol)` obtains no fresh quote from any source
(after the dispatcher's retries are exhausted, i.e. `fetched = none`) and a
previously cached entry for the symbol exists — even one past its TTL —
then it returns that cached quote with `stale` set to `true`, leaving the
cache unchanged, instead of propagating the error. -/
theorem staleCache_fallback :
    ∀ (cache : List (String × CacheEntry)) (symbol : String) (now : Int)
      (rand : ℚ) (entry : CacheEntry),
      getCachedPrice cache symbol now = none →
      cache.lookup (jsToUpper symbol) = some entry →
      getCurrentPrice cache symbol now none rand = ({ entry.data with stale := true }, cache) ∧
        (getCurrentPrice cache symbol now none rand).1.stale = true := by
  intro cache symbol now rand entry hfresh hstale
  have h : getCurrentPrice cache symbol now none rand = ({ entry.data with stale := true }, cache) := by
    unfold getCurrentPrice
    rw [hfresh, hstale]
  exact ⟨h, by rw [h]⟩

/-- A concrete expired cache entry for the witness of `staleCache_fallback`. -/
def witnessQuote : Quote :=
  { symbol := "AAPL", price := 150, change := 0, changePercent := 0,
    source := "Finnhub", stale := false }

/-- A one-entry cache holding `witnessQuote` stored at time 0. -/
def witnessCache : List (String × CacheEntry) :=
  [("AAPL", { data := witnessQuote, timestamp := 0 })]

/-- Witness for `staleCache_fallback`: an entry cached at time 0 queried at
time 100000 (far past the 30 s TTL) with every source failing. -/
theorem staleCache_fallback_witness :
    getCachedPrice witnessCache "AAPL" 100000 = none ∧
      witnessCache.lookup (jsToUpper "AAPL") = some { data := witnessQuote, timestamp := 0 } ∧
      getCurrentPrice witnessCache "AAPL" 100000 none 0 =
        ({ witnessQuote with stale := true }, witnessCache) :=
  ⟨by decide, by decide,
    (staleCache_fallback witnessCache "AAPL" 100000 0
      { data := witnessQuote, timestamp := 0 } (by decide) (by decide)).1⟩
